import Mathlib

/-!
Verification of the pomerium/cli tunnel transport layer.

This file shallowly embeds the tunnel package of the repository: the error
taxonomy (sentinel errors checked by wrapping), the CONNECT response status
classification of the per-protocol tunnelers, the protocol picker, the
fallback tunneler, the JWT orchestrator runWithJWT, the UDP send-or-drop
queue policy, the capsule/varint codec, and ParseURLs.  External
collaborators (the JWT cache, the browser-login client, sockets, the TLS
dialer and the URL parser of the Go standard library) are modelled as
oracle inputs, exactly at the call boundaries the Go code uses them.
-/

namespace PomeriumTunnel

/-- Model of Go error values as used by the tunnel package: sentinel errors
created by errors.New (compared by identity, here by their unique message),
plain errors created by fmt.Errorf without a %w verb, and wrapping errors
created by fmt.Errorf with a %w verb, carrying their full rendered message
and the wrapped inner error. -/
inductive GoError where
  | sentinel (msg : String)
  | basic (msg : String)
  | wrapped (msg : String) (inner : GoError)
deriving DecidableEq, Repr

/-- Rendered message of a Go error (what err.Error() returns). -/
def GoError.message : GoError → String
  | .sentinel m => m
  | .basic m => m
  | .wrapped m _ => m

/-- Model of errors.Is: the target matches the error itself or any error
reachable through the Unwrap chain produced by a %w verb. -/
def errIs : GoError → GoError → Bool
  | e, t =>
    (e == t) ||
      match e with
      | .wrapped _ inner => errIs inner t
      | _ => false

/-- Model of errors.Is applied to the result of a call that may return a
nil error: errors.Is(nil, target) is false for the non-nil sentinels used
here. -/
def errOptIs (e : Option GoError) (t : GoError) : Bool :=
  match e with
  | none => false
  | some e => errIs e t

/-- Sentinel errUnavailable from tunnel.go. -/
def errUnavailable : GoError := .sentinel "unavailable"

/-- Sentinel errUnauthenticated from tunnel.go. -/
def errUnauthenticated : GoError := .sentinel "unauthenticated"

/-- Sentinel errUnauthorized from tunnel.go. -/
def errUnauthorized : GoError := .sentinel "unauthorized"

/-- Sentinel errUnsupported from tunnel.go. -/
def errUnsupported : GoError := .sentinel "unsupported"

/-- Sentinel jwt.ErrExpired from the jwt cache package. -/
def jwtErrExpired : GoError := .sentinel "expired"

/-- Sentinel jwt.ErrInvalid from the jwt cache package. -/
def jwtErrInvalid : GoError := .sentinel "invalid"

/-- Sentinel jwt.ErrNotFound from the jwt cache package. -/
def jwtErrNotFound : GoError := .sentinel "not found"

/-! ## CONNECT response status classification (tunnel_http2.go / part_015,
tunnel_http3.go, tunnel_udp.go http1tunneler)

Each tunneler classifies the handshake response status with an inline
switch.  The switches are identical except for the message prefix of the
default case.  None of them has a case for status 403. -/

/-- Status classification switch of http1tunneler.TunnelTCP
(tunnel_udp.go): 200 falls through (success), 503 is errUnavailable,
301/302/307/308 are errUnauthenticated, anything else is a fresh
fmt.Errorf error. -/
def http1TunnelStatusError (s : Nat) : Option GoError :=
  if s = 200 then none
  else if s = 503 then some errUnavailable
  else if s = 301 ∨ s = 302 ∨ s = 307 ∨ s = 308 then some errUnauthenticated
  else some (.basic ("http/1: invalid http response code: " ++ toString s))

/-- Status classification switch of http2tunneler.TunnelTCP (part_015). -/
def http2TunnelStatusError (s : Nat) : Option GoError :=
  if s = 200 then none
  else if s = 503 then some errUnavailable
  else if s = 301 ∨ s = 302 ∨ s = 307 ∨ s = 308 then some errUnauthenticated
  else some (.basic ("http/2: invalid http response code: " ++ toString s))

/-- Status classification switch of http3tunneler.TunnelTCP
(tunnel_http3.go). -/
def http3TunnelStatusError (s : Nat) : Option GoError :=
  if s = 200 then none
  else if s = 503 then some errUnavailable
  else if s = 301 ∨ s = 302 ∨ s = 307 ∨ s = 308 then some errUnauthenticated
  else some (.basic ("http/3: invalid response code: " ++ toString s))

/-- Helper httpStatusCodeToError from tunnel.go.  It additionally maps 403
to errUnauthorized, but no tunneler in the repository calls it. -/
def httpStatusCodeToError (s : Nat) : Option GoError :=
  if s = 200 then none
  else if s = 503 then some errUnavailable
  else if s = 301 ∨ s = 302 ∨ s = 307 ∨ s = 308 then some errUnauthenticated
  else if s = 403 then some errUnauthorized
  else some (.basic ("invalid http response code: " ++ toString s))

/-- A generic transport error: a fresh error that wraps none of the
sentinels. -/
def isGenericStatusError (e : Option GoError) : Prop :=
  ∃ m, e = some (GoError.basic m)

/-! ## Strings

Go strings are modelled as lists of characters where character-level
operations matter. -/

/-- Model of strings.Contains: substr occurs contiguously inside s.
Follows the obvious recursion: either substr is a prefix of s or it is
contained in the tail of s. -/
def goContains (s substr : List Char) : Bool :=
  if substr.isPrefixOf s then true
  else
    match s with
    | [] => false
    | _ :: t => goContains t substr

/-! ## Configuration and protocol picking (tunnel_tcp.go, tunnel_udp.go)

The TLS configuration is opaque to the picking logic: only its presence is
inspected.  The probe request issued by the pickers is modelled as an
oracle result: either an error (request creation or round trip failed) or
a response carrying the Alt-Svc header value and the negotiated protocol
major version. -/

/-- Opaque model of crypto/tls Config.  The tunnelers only consult
presence, clone it and overwrite NextProtos. -/
structure TLSConfig where
  serverName : String := ""
  nextProtos : List String := []
deriving DecidableEq, Repr

/-- The tunnel configuration fields consulted by the embedded code. -/
structure Config where
  proxyHost : String
  dstHost : String
  tlsConfig : Option TLSConfig
deriving DecidableEq, Repr

/-- The concrete tunneler chosen by a picker. -/
inductive PickedTunneler where
  | http1
  | http2
  | http3
deriving DecidableEq, Repr

/-- Result of the HTTP probe request made by the pickers: the Alt-Svc
response header value and the negotiated protocol major version. -/
structure ProbeResponse where
  altSvc : List Char
  protoMajor : Nat
deriving DecidableEq, Repr

/-- Model of Tunnel.pickUDPTunneler (tunnel_udp.go): without TLS return
http1; if the probe fails return http1; if the Alt-Svc header contains
h3 return http3; otherwise return http1.  The probe (request creation
plus client round trip) is an oracle input. -/
def pickUDPTunneler (tlsConfig : Option TLSConfig)
    (probe : Except GoError ProbeResponse) : PickedTunneler :=
  match tlsConfig with
  | none => .http1
  | some _ =>
    match probe with
    | .error _ => .http1
    | .ok res =>
      if goContains res.altSvc [ 'h', '3' ] then .http3
      else .http1

/-- Model of Tunnel.pickTCPTunneler (tunnel_tcp.go): identical to the UDP
picker except that, when Alt-Svc does not advertise h3 and the probe was
answered over HTTP/2, it returns http2. -/
def pickTCPTunneler (tlsConfig : Option TLSConfig)
    (probe : Except GoError ProbeResponse) : PickedTunneler :=
  match tlsConfig with
  | none => .http1
  | some _ =>
    match probe with
    | .error _ => .http1
    | .ok res =>
      if goContains res.altSvc [ 'h', '3' ] then .http3
      else if res.protoMajor = 2 then .http2
      else .http1

/-! ## HTTP/2 client connection and HTTP/3 transport prerequisites
(part_015 http2tunneler.getClientConn, tunnel_http3.go
http3tunneler.getTransport)

The TLS dial and the h2 client connection construction are oracles; the
outcome additionally records how many times the dialer was invoked. -/

/-- A TLS connection as seen by getClientConn: only the negotiated ALPN
protocol is consulted.  The tls.Dialer always returns a tls.Conn, so the
defensive type assertion of the source is not a separate oracle. -/
structure TLSConn where
  negotiatedProtocol : String
deriving DecidableEq, Repr

/-- Oracle inputs of http2tunneler.getClientConn: the TLS dial result and
the error, if any, of http2.Transport.NewClientConn. -/
structure H2DialEnv where
  dialResult : Except GoError TLSConn
  newClientConnError : Option GoError
deriving Repr

/-- Outcome of http2tunneler.getClientConn: the result (the established
client connection is abstracted to Unit) and the number of proxy dials
performed. -/
structure H2ConnOutcome where
  result : Except GoError Unit
  dialCount : Nat
deriving Repr

/-- Model of http2tunneler.getClientConn (part_015): a nil TLS config
fails with an error wrapping errUnsupported before any dial; a dial error
is a generic wrapped error; a negotiated ALPN protocol other than h2
fails with an error wrapping errUnsupported; a NewClientConn error is a
generic wrapped error; otherwise the connection is returned. -/
def http2getClientConn (tlsConfig : Option TLSConfig) (env : H2DialEnv) :
    H2ConnOutcome :=
  match tlsConfig with
  | none =>
    { result := .error (.wrapped "unsupported: http2 requires TLS" errUnsupported)
      dialCount := 0 }
  | some _ =>
    match env.dialResult with
    | .error e =>
      { result := .error
          (.wrapped ("http/2: failed to establish connection to proxy: " ++ e.message) e)
        dialCount := 1 }
    | .ok conn =>
      if conn.negotiatedProtocol ≠ "h2" then
        { result := .error
            (.wrapped ("unsupported: unexpected TLS protocol: " ++ conn.negotiatedProtocol)
              errUnsupported)
          dialCount := 1 }
      else
        match env.newClientConnError with
        | some e =>
          { result := .error
              (.wrapped ("http/2: failed to establish connection: " ++ e.message) e)
            dialCount := 1 }
        | none => { result := .ok (), dialCount := 1 }

/-- The quic configuration constructed by getTransport when datagrams are
enabled. -/
structure QuicConfig where
  enableDatagrams : Bool
  initialPacketSize : Nat
deriving DecidableEq, Repr

/-- The http3 transport constructed by getTransport. -/
structure H3Transport where
  tlsClientConfig : TLSConfig
  enableDatagrams : Bool
  quicConfig : Option QuicConfig
deriving DecidableEq, Repr

/-- Model of http3tunneler.getTransport (tunnel_http3.go): a nil TLS
config fails with an error wrapping errUnsupported; otherwise the config
is cloned with NextProtos set to h3 and a transport is returned, with
datagram support when requested.  No dialing happens here: the function
only builds the transport. -/
def http3getTransport (tlsConfig : Option TLSConfig) (enableDatagrams : Bool) :
    Except GoError H3Transport :=
  match tlsConfig with
  | none => .error (.wrapped "http/3: unsupported: TLS is required" errUnsupported)
  | some cfg =>
    let cfg := { cfg with nextProtos := ["h3"] }
    if enableDatagrams then
      .ok { tlsClientConfig := cfg, enableDatagrams := true
            quicConfig := some { enableDatagrams := true, initialPacketSize := 1350 } }
    else
      .ok { tlsClientConfig := cfg, enableDatagrams := false, quicConfig := none }

/-! ## JWT orchestrator (tunnel.go, Tunnel.runWithJWT)

The JWT cache and the browser-login client are collaborators consumed
through LoadJWT/StoreJWT/DeleteJWT and GetJWT; they are modelled as oracle
results.  The handler result may depend on the attempt index and on the
JWT it was invoked with.  The outcome records the full interaction trace:
which JWTs the handler was invoked with, how many times GetJWT was
called, and every StoreJWT and DeleteJWT call with its arguments. -/

/-- Oracle inputs of one runWithJWT run. -/
structure JWTEnv where
  /-- Result of jwtCache.LoadJWT: the token and the error, if any. -/
  loadResult : String × Option GoError
  /-- Result of the i-th handler invocation with the given raw JWT
  (none is a nil error, that is success). -/
  handlerResult : Nat → String → Option GoError
  /-- Result of auth.GetJWT. -/
  getJWTResult : Except GoError String
  /-- Error, if any, of jwtCache.StoreJWT. -/
  storeResult : Option GoError

/-- Interaction trace and final result of one runWithJWT run. -/
structure JWTRunOutcome where
  /-- The returned error (none is a nil error). -/
  result : Option GoError
  /-- The raw JWTs the handler was invoked with, in invocation order. -/
  handlerCalls : List String
  /-- Number of auth.GetJWT invocations. -/
  getJWTCalls : Nat
  /-- Arguments of every jwtCache.StoreJWT call, in order. -/
  storeCalls : List (String × String)
  /-- Keys of every jwtCache.DeleteJWT call, in order. -/
  deleteCalls : List String
deriving DecidableEq, Repr

/-- Model of jwt.CacheKeyForHost: host, a pipe, and whether a TLS config
is present. -/
def jwtCacheKey (cfg : Config) : String :=
  cfg.proxyHost ++ "|" ++ (if cfg.tlsConfig.isSome then "true" else "false")

/-- Final error classification of runWithJWT: an errUnavailable or
errUnauthorized result is returned without touching the cache; any other
non-nil error causes one DeleteJWT of the cache key before being
returned. -/
def runWithJWTFinish (key : String) (err : Option GoError)
    (handlerCalls : List String) (getJWTCalls : Nat)
    (storeCalls : List (String × String)) : JWTRunOutcome :=
  match err with
  | none =>
    { result := none, handlerCalls, getJWTCalls, storeCalls, deleteCalls := [] }
  | some e =>
    if errIs e errUnavailable || errIs e errUnauthorized then
      { result := some e, handlerCalls, getJWTCalls, storeCalls, deleteCalls := [] }
    else
      { result := some e, handlerCalls, getJWTCalls, storeCalls, deleteCalls := [key] }

/-- Model of Tunnel.runWithJWT (tunnel.go): load a cached token (cache
misses, expired and invalid tokens are benign and leave an empty token;
any other load error is fatal), invoke the handler, and on an
errUnauthenticated result drive the browser login once, store the fresh
token and invoke the handler once more; finally classify the error via
runWithJWTFinish. -/
def runWithJWT (key : String) (env : JWTEnv) : JWTRunOutcome :=
  let (rawJWT, loadErr) := env.loadResult
  let benign : Bool :=
    match loadErr with
    | none => true
    | some e => errIs e jwtErrExpired || errIs e jwtErrInvalid || errIs e jwtErrNotFound
  match loadErr, benign with
  | some e, false =>
    { result := some (.wrapped ("tunnel: failed to load JWT: " ++ e.message) e)
      handlerCalls := [], getJWTCalls := 0, storeCalls := [], deleteCalls := [] }
  | _, _ =>
    let err0 := env.handlerResult 0 rawJWT
    if errOptIs err0 errUnauthenticated then
      match env.getJWTResult with
      | .error e =>
        { result := some (.wrapped ("tunnel: failed to get authentication JWT: " ++ e.message) e)
          handlerCalls := [rawJWT], getJWTCalls := 1, storeCalls := [], deleteCalls := [] }
      | .ok newJWT =>
        match env.storeResult with
        | some e =>
          { result := some (.wrapped ("tunnel: failed to store JWT: " ++ e.message) e)
            handlerCalls := [rawJWT], getJWTCalls := 1
            storeCalls := [(key, newJWT)], deleteCalls := [] }
        | none =>
          runWithJWTFinish key (env.handlerResult 1 newJWT)
            [rawJWT, newJWT] 1 [(key, newJWT)]
    else
      runWithJWTFinish key err0 [rawJWT] 0 []

/-- A benign LoadJWT outcome: no error, or one of the jwt cache errors
that runWithJWT ignores (expired, invalid, not found). -/
def loadIsBenign (env : JWTEnv) : Bool :=
  match env.loadResult.2 with
  | none => true
  | some e => errIs e jwtErrExpired || errIs e jwtErrInvalid || errIs e jwtErrNotFound

/-! ## Fallback tunneler (tunnel_fallback.go)

The wrapped tunnelers are identified by indices into a behaviour oracle;
a pruned entry is nil, mirroring the in-place nil assignment of the
source.  TunnelTCP and TunnelUDP of the fallback are the same algorithm,
embedded once. -/

/-- The error returned when every tunneler has been pruned:
fmt.Errorf applied to the no-tunnelers format wrapping errUnsupported. -/
def errNoTunnelers : GoError :=
  .wrapped "unsupported: no tunnelers defined" errUnsupported

/-- Model of one fallbackTCPTunneler.TunnelTCP (or TunnelUDP) call: walk
the entries in order; skip nil entries; invoke a live entry, and if its
result wraps errUnsupported overwrite the entry with nil and continue;
any other result (success or error) is returned as-is.  When no live
entry remains, fail with errNoTunnelers.  Returns the invocation log, the
updated entry list and the call result. -/
def fallbackCall (res : Nat → Option GoError) :
    List (Option Nat) → List Nat × List (Option Nat) × Option GoError
  | [] => ([], [], some errNoTunnelers)
  | none :: rest =>
    let (log, rest', out) := fallbackCall res rest
    (log, none :: rest', out)
  | some id :: rest =>
    match res id with
    | some e =>
      if errIs e errUnsupported then
        let (log, rest', out) := fallbackCall res rest
        (id :: log, none :: rest', out)
      else ([id], some id :: rest, some e)
    | none => ([id], some id :: rest, none)

/-- A sequence of fallback tunneler calls against the same (mutated)
entry list: call n uses behaviour res n.  Returns the per-call invocation
logs and results, and the final entry list. -/
def fallbackRun (res : Nat → Nat → Option GoError) (st : List (Option Nat)) :
    Nat → List (List Nat × Option GoError) × List (Option Nat)
  | 0 => ([], st)
  | n + 1 =>
    let (log, st', out) := fallbackCall (res 0) st
    let (rest, stf) := fallbackRun (fun i => res (i + 1)) st' n
    ((log, out) :: rest, stf)

/-- Total number of invocations of the tunneler id across a sequence of
fallback calls. -/
def fallbackInvocations (id : Nat) (calls : List (List Nat × Option GoError)) : Nat :=
  (calls.map (fun c => c.1.count id)).sum

/-- A tunneler result that triggers fallback: a non-nil error wrapping
errUnsupported. -/
def isUnsupportedResult (e : Option GoError) : Prop :=
  ∃ x, e = some x ∧ errIs x errUnsupported = true

/-! ## UDP session queue policy (tunnel_udp.go, sendOrDrop)

The bounded channel of a session is modelled as a list of queued elements
together with its capacity; the session is idle, so no concurrent receive
races the policy, and the loop of sendOrDrop terminates after at most one
eviction. -/

/-- A UDP packet: peer address and payload. -/
structure UDPPacket where
  addr : String
  payload : List Nat
deriving DecidableEq, Repr

/-- Capacity of a session inbound queue as allocated by newUDPSession. -/
def udpSessionQueueCapacity : Nat := 128

/-- Model of sendOrDrop on an idle bounded channel with capacity cap
holding queue q: if the queue has room the element is appended with no
drop; on a zero-capacity channel the new element itself is dropped;
otherwise the oldest queued element is received and dropped, after which
the append succeeds.  Returns the new queue and the drop count. -/
def sendOrDrop {α : Type} (cap : Nat) (q : List α) (packet : α) :
    List α × Nat :=
  if q.length < cap then (q ++ [packet], 0)
  else if cap = 0 then (q, 1)
  else (q.tail ++ [packet], 1)

/-- Repeated sendOrDrop of a packet sequence into a queue, accumulating
the total drop count, as performed by the dispatch loop for packets of a
single peer. -/
def floodQueue {α : Type} (cap : Nat) (q : List α) : List α → List α × Nat
  | [] => (q, 0)
  | p :: ps =>
    let r := sendOrDrop cap q p
    let rest := floodQueue cap r.1 ps
    (rest.1, r.2 + rest.2)

/-! ## Capsule codec (tunnel_udp.go with quic-go quicvarint and
http3.WriteCapsule / http3.ParseCapsule)

Byte streams are lists of byte values.  quicvarint.Append panics for
values of 2^62 or more, modelled as none.  quicvarint.Read inspects the
two prefix bits of the first byte to choose a 1, 2, 4 or 8 byte
encoding and assembles the value big-endian from the 6 remaining bits
and the continuation bytes. -/

/-- Model of quicvarint.Append on an empty slice: the shortest RFC 9000
variable-length integer encoding of n, or none where the Go code panics
(values of 2^62 or more). -/
def quicvarintAppend (n : Nat) : Option (List Nat) :=
  if n < 64 then some [n]
  else if n < 16384 then some [64 + n / 256, n % 256]
  else if n < 1073741824 then
    some [128 + n / 16777216, n / 65536 % 256, n / 256 % 256, n % 256]
  else if n < 4611686018427387904 then
    some [192 + n / 72057594037927936,
      n / 281474976710656 % 256, n / 1099511627776 % 256, n / 4294967296 % 256,
      n / 16777216 % 256, n / 65536 % 256, n / 256 % 256, n % 256]
  else none

/-- Model of quicvarint.Read: consume one variable-length integer from
the front of the stream, returning its value and the remaining bytes, or
none when the stream is too short. -/
def quicvarintRead : List Nat → Option (Nat × List Nat)
  | [] => none
  | b :: rest =>
    if b / 64 = 0 then some (b % 64, rest)
    else if b / 64 = 1 then
      match rest with
      | c1 :: r => some (b % 64 * 256 + c1, r)
      | [] => none
    else if b / 64 = 2 then
      match rest with
      | c1 :: c2 :: c3 :: r =>
        some (((b % 64 * 256 + c1) * 256 + c2) * 256 + c3, r)
      | _ => none
    else
      match rest with
      | c1 :: c2 :: c3 :: c4 :: c5 :: c6 :: c7 :: r =>
        some (((((((b % 64 * 256 + c1) * 256 + c2) * 256 + c3) * 256 + c4)
          * 256 + c5) * 256 + c6) * 256 + c7, r)
      | _ => none

/-- The leading context-ID bytes: quicvarint.Append(nil, 0). -/
def contextID : List Nat := [0]

/-- Model of http3.WriteCapsule: the capsule type varint, the payload
length varint, then the payload bytes. -/
def writeCapsule (capsuleType : Nat) (value : List Nat) : Option (List Nat) := do
  let tb ← quicvarintAppend capsuleType
  let lb ← quicvarintAppend value.length
  pure (tb ++ lb ++ value)

/-- Model of http3.ParseCapsule: read the capsule type varint and the
content length varint, then hand back a reader limited to the content
length.  Returns the type, the capsule payload (at most length bytes, as
io.ReadAll of a LimitReader yields) and the rest of the stream. -/
def parseCapsule (src : List Nat) : Option (Nat × List Nat × List Nat) := do
  let (ct, r1) ← quicvarintRead src
  let (len, r2) ← quicvarintRead r1
  pure (ct, r2.take len, r2.drop len)

/-- Model of writeUDPCapsuleDatagram (tunnel_udp.go): prefix the packet
with the zero context ID and frame the result as a type-0 capsule. -/
def writeUDPCapsuleDatagram (packet : List Nat) : Option (List Nat) :=
  writeCapsule 0 (contextID ++ packet)

/-- Model of readUDPCapsuleDatagram (tunnel_udp.go): parse one capsule
(its type is ignored), skip one varint inside the capsule payload (the
context ID, whose value is ignored) and return the remaining capsule
bytes, together with the rest of the stream. -/
def readUDPCapsuleDatagram (src : List Nat) : Option (List Nat × List Nat) := do
  let (_ct, body, rest) ← parseCapsule src
  let (_ctxID, datagram) ← quicvarintRead body
  pure (datagram, rest)

/-! ## URL and address resolution (urls.go, ParseURLs)

Strings are lists of characters here, since the resolver works at the
character level.  url.Parse of the Go standard library is an external
collaborator and is passed in as an oracle; net.SplitHostPort,
net.JoinHostPort, url.URL.Hostname and strings.Split are embedded. -/

/-- First index of the character c in s. -/
def firstIndexOfChar (c : Char) (s : List Char) : Option Nat :=
  s.findIdx? (fun x => x = c)

/-- Last index of the character c in s. -/
def lastIndexOfChar (c : Char) (s : List Char) : Option Nat :=
  match s.reverse.findIdx? (fun x => x = c) with
  | none => none
  | some j => some (s.length - 1 - j)

/-- Model of strings.TrimPrefix: remove the prefix when present. -/
def trimPrefixList (s pre : List Char) : List Char :=
  if pre.isPrefixOf s then s.drop pre.length else s

/-- Model of strings.Split with a single-character separator. -/
def goSplitOn (sep : Char) : List Char → List (List Char)
  | [] => [[]]
  | c :: rest =>
    let r := goSplitOn sep rest
    if c = sep then [] :: r
    else
      match r with
      | h :: t => (c :: h) :: t
      | [] => [[c]]

/-- Model of net.SplitHostPort: split host:port, handling an
IPv6-bracketed host.  All the error returns of the Go function collapse
to none; the success return is the (host, port) pair. -/
def goSplitHostPort (s : List Char) : Option (List Char × List Char) :=
  match lastIndexOfChar ':' s with
  | none => none
  | some i =>
    match s with
    | [] => none
    | c0 :: _ =>
      if c0 = '[' then
        match firstIndexOfChar ']' s with
        | none => none
        | some e =>
          if e + 1 = s.length then none
          else if e + 1 = i then
            if (s.drop 1).contains '[' then none
            else if (s.drop (e + 1)).contains ']' then none
            else some ((s.take e).drop 1, s.drop (i + 1))
          else none
      else
        if (s.take i).contains ':' then none
        else if s.contains '[' then none
        else if s.contains ']' then none
        else some (s.take i, s.drop (i + 1))

/-- Model of net.JoinHostPort: bracket the host when it contains a
colon. -/
def goJoinHostPort (host port : List Char) : List Char :=
  if host.contains ':' then '[' :: (host ++ ']' :: ':' :: port)
  else host ++ ':' :: port

/-- Model of url.URL.Hostname (the stripPort helper): without a colon the
host is returned whole; with a bracket the bracketed part is returned
without its brackets; otherwise everything before the first colon. -/
def goStripPort (s : List Char) : List Char :=
  match firstIndexOfChar ':' s with
  | none => s
  | some colon =>
    match firstIndexOfChar ']' s with
    | some i => trimPrefixList (s.take i) [ '[' ]
    | none => s.take colon

/-- The fields of url.URL consulted by ParseURLs. -/
structure GoURL where
  scheme : List Char
  host : List Char
  path : List Char
deriving DecidableEq, Repr

/-- The scheme separator searched for in the destination. -/
def schemeSeparator : List Char := [ ':', '/', '/' ]

/-- The characters of the tcp+ scheme prefix. -/
def tcpPlusPrefix : List Char := [ 't', 'c', 'p', '+' ]

/-- The characters of the udp+ scheme prefix. -/
def udpPlusPrefix : List Char := [ 'u', 'd', 'p', '+' ]

/-- The characters of the https scheme. -/
def httpsChars : List Char := [ 'h', 't', 't', 'p', 's' ]

/-- The characters of the default https port. -/
def port443 : List Char := [ '4', '4', '3' ]

/-- The characters of the default http port. -/
def port80 : List Char := [ '8', '0' ]

/-- Model of ParseURLs (urls.go).  The url.Parse collaborator is the
urlParse oracle (none models a parse error).  Returns the Go triple
(destinationAddr, proxyURL, err): every error return of the source
yields the zero values (empty string, nil URL) next to the error
message. -/
def ParseURLs (urlParse : List Char → Option GoURL)
    (destination pomeriumURL : List Char) :
    List Char × Option GoURL × Option String :=
  let resolved : Except String (List Char × GoURL) :=
    if goContains destination schemeSeparator then
      match urlParse destination with
      | none => .error "invalid destination"
      | some du =>
        let scheme := trimPrefixList (trimPrefixList du.scheme tcpPlusPrefix) udpPlusPrefix
        match (goSplitOn '/' du.path).drop 1 with
        | [] => .ok (du.host, { scheme, host := goStripPort du.host, path := [] })
        | p0 :: _ => .ok (p0, { scheme, host := du.host, path := [] })
    else
      match goSplitHostPort destination with
      | some (h, p) =>
        .ok (goJoinHostPort h p, { scheme := httpsChars, host := h, path := [] })
      | none => .error "invalid destination"
  match resolved with
  | .error e => ([], none, some e)
  | .ok (dst, proxy0) =>
    let proxyE : Except String GoURL :=
      if pomeriumURL.isEmpty then .ok proxy0
      else
        match urlParse pomeriumURL with
        | none => .error "invalid pomerium url"
        | some u => if u.host.isEmpty then .error "invalid pomerium url" else .ok u
    match proxyE with
    | .error e => ([], none, some e)
    | .ok proxy1 =>
      if proxy1.host.contains ':' then (dst, some proxy1, none)
      else if proxy1.scheme = httpsChars then
        (dst, some { proxy1 with host := goJoinHostPort proxy1.host port443 }, none)
      else
        (dst, some { proxy1 with host := goJoinHostPort proxy1.host port80 }, none)

/-! ## Theorems -/

/-- C3 counterexample: the HTTP/2 and HTTP/3 tunnelers do not map status
403 to errUnauthorized; 403 falls into the default branch of their
status switches and yields a generic transport error. -/
theorem connectStatus403NotUnauthorized :
    http2TunnelStatusError 403
        = some (.basic "http/2: invalid http response code: 403")
      ∧ http3TunnelStatusError 403
        = some (.basic "http/3: invalid response code: 403")
      ∧ errOptIs (http2TunnelStatusError 403) errUnauthorized = false
      ∧ errOptIs (http3TunnelStatusError 403) errUnauthorized = false := by
  refine ⟨rfl, rfl, ?_, ?_⟩ <;> decide

/-- C3 (amended): every per-protocol tunneler classifies the CONNECT
response status as 200 success, 503 errUnavailable, 301/302/307/308
errUnauthenticated and any other status (403 included, for all three
tunnelers) as a generic transport error; the helper httpStatusCodeToError
maps 403 to errUnauthorized but no tunneler calls it. -/
theorem connectStatusClassification (s : Nat)
    (hs : s ∉ ([200, 503, 301, 302, 307, 308] : List Nat)) :
    http1TunnelStatusError 200 = none
      ∧ http2TunnelStatusError 200 = none
      ∧ http3TunnelStatusError 200 = none
      ∧ http1TunnelStatusError 503 = some errUnavailable
      ∧ http2TunnelStatusError 503 = some errUnavailable
      ∧ http3TunnelStatusError 503 = some errUnavailable
      ∧ (∀ r ∈ ([301, 302, 307, 308] : List Nat),
          http1TunnelStatusError r = some errUnauthenticated
            ∧ http2TunnelStatusError r = some errUnauthenticated
            ∧ http3TunnelStatusError r = some errUnauthenticated)
      ∧ isGenericStatusError (http1TunnelStatusError s)
      ∧ isGenericStatusError (http2TunnelStatusError s)
      ∧ isGenericStatusError (http3TunnelStatusError s)
      ∧ httpStatusCodeToError 403 = some errUnauthorized := by
  simp only [List.mem_cons, List.not_mem_nil, or_false, not_or] at hs
  obtain ⟨h200, h503, h301, h302, h307, h308⟩ := hs
  refine ⟨rfl, rfl, rfl, rfl, rfl, rfl, by decide, ?_, ?_, ?_, rfl⟩
  · refine ⟨"http/1: invalid http response code: " ++ toString s, ?_⟩
    simp only [http1TunnelStatusError, if_neg h200, if_neg h503]
    rw [if_neg (by tauto)]
  · refine ⟨"http/2: invalid http response code: " ++ toString s, ?_⟩
    simp only [http2TunnelStatusError, if_neg h200, if_neg h503]
    rw [if_neg (by tauto)]
  · refine ⟨"http/3: invalid response code: " ++ toString s, ?_⟩
    simp only [http3TunnelStatusError, if_neg h200, if_neg h503]
    rw [if_neg (by tauto)]

/-- C3 witness: the classification facts instantiated at status 403. -/
theorem connectStatusClassificationAt403 :
    http1TunnelStatusError 200 = none
      ∧ http2TunnelStatusError 200 = none
      ∧ http3TunnelStatusError 200 = none
      ∧ http1TunnelStatusError 503 = some errUnavailable
      ∧ http2TunnelStatusError 503 = some errUnavailable
      ∧ http3TunnelStatusError 503 = some errUnavailable
      ∧ (∀ r ∈ ([301, 302, 307, 308] : List Nat),
          http1TunnelStatusError r = some errUnauthenticated
            ∧ http2TunnelStatusError r = some errUnauthenticated
            ∧ http3TunnelStatusError r = some errUnauthenticated)
      ∧ isGenericStatusError (http1TunnelStatusError 403)
      ∧ isGenericStatusError (http2TunnelStatusError 403)
      ∧ isGenericStatusError (http3TunnelStatusError 403)
      ∧ httpStatusCodeToError 403 = some errUnauthorized :=
  connectStatusClassification 403 (by decide)

/-- C9: with a nil TLS configuration the HTTP/2 tunneler fails with an
error wrapping errUnsupported without dialing, and so does the HTTP/3
transport construction (which never dials); an HTTP/2 TLS handshake that
negotiates an ALPN protocol other than h2 also fails with an error
wrapping errUnsupported. -/
theorem transportPrerequisiteUnsupported :
    (∀ env : H2DialEnv,
        (∃ e, (http2getClientConn none env).result = .error e
          ∧ errIs e errUnsupported = true)
        ∧ (http2getClientConn none env).dialCount = 0)
      ∧ (∀ (cfg : TLSConfig) (env : H2DialEnv) (conn : TLSConn),
          env.dialResult = .ok conn → conn.negotiatedProtocol ≠ "h2" →
          ∃ e, (http2getClientConn (some cfg) env).result = .error e
            ∧ errIs e errUnsupported = true)
      ∧ (∀ enableDatagrams : Bool,
          ∃ e, http3getTransport none enableDatagrams = .error e
            ∧ errIs e errUnsupported = true) := by
  refine ⟨fun env => ⟨⟨_, rfl, by decide⟩, rfl⟩, ?_, fun b => ⟨_, rfl, by decide⟩⟩
  intro cfg env conn hdial hproto
  refine ⟨.wrapped ("unsupported: unexpected TLS protocol: " ++ conn.negotiatedProtocol)
    errUnsupported, ?_, ?_⟩
  · simp only [http2getClientConn, hdial, if_pos hproto]
  · simp [errIs]

/-- C9 witness: the ALPN-mismatch case instantiated with a connection
that negotiated http/1.1. -/
theorem transportPrerequisiteUnsupportedAlpn :
    ∃ e,
      (http2getClientConn (some {})
        { dialResult := .ok { negotiatedProtocol := "http/1.1" }
          newClientConnError := none }).result = .error e
      ∧ errIs e errUnsupported = true :=
  transportPrerequisiteUnsupported.2.1 {}
    { dialResult := .ok { negotiatedProtocol := "http/1.1" }
      newClientConnError := none }
    { negotiatedProtocol := "http/1.1" } rfl (by decide)

/-- C10: the UDP picker never selects the HTTP/2 tunneler: it returns
http3 exactly when TLS is enabled, the probe succeeded and its Alt-Svc
header contains h3, and http1 in every other situation, including a
successful probe answered over HTTP/2; the TCP picker returns http2 in
that situation. -/
theorem pickUDPTunnelerNeverHTTP2 :
    (∀ (tlsConfig : Option TLSConfig) (probe : Except GoError ProbeResponse),
        pickUDPTunneler tlsConfig probe ≠ .http2)
      ∧ (∀ (cfg : TLSConfig) (res : ProbeResponse),
          goContains res.altSvc [ 'h', '3' ] = true →
          pickUDPTunneler (some cfg) (.ok res) = .http3)
      ∧ (∀ (cfg : TLSConfig) (res : ProbeResponse),
          goContains res.altSvc [ 'h', '3' ] = false →
          pickUDPTunneler (some cfg) (.ok res) = .http1)
      ∧ (∀ probe : Except GoError ProbeResponse,
          pickUDPTunneler none probe = .http1)
      ∧ (∀ (cfg : TLSConfig) (e : GoError),
          pickUDPTunneler (some cfg) (.error e) = .http1)
      ∧ (∀ (cfg : TLSConfig) (res : ProbeResponse),
          goContains res.altSvc [ 'h', '3' ] = false → res.protoMajor = 2 →
          pickTCPTunneler (some cfg) (.ok res) = .http2) := by
  refine ⟨?_, ?_, ?_, fun _ => rfl, fun _ _ => rfl, ?_⟩
  · rintro (_ | cfg) (e | res)
    · simp [pickUDPTunneler]
    · simp [pickUDPTunneler]
    · simp [pickUDPTunneler]
    · simp only [pickUDPTunneler]
      split <;> simp
  · intro cfg res h
    simp [pickUDPTunneler, h]
  · intro cfg res h
    simp [pickUDPTunneler, h]
  · intro cfg res h h2
    simp [pickTCPTunneler, h, h2]

/-- C10 witness: a successful probe over HTTP/2 without an h3 Alt-Svc
advertisement makes the UDP picker choose http1 while the TCP picker
chooses http2. -/
theorem pickUDPTunnelerNeverHTTP2OnH2Probe :
    pickUDPTunneler (some {}) (.ok { altSvc := [], protoMajor := 2 }) = .http1
      ∧ pickTCPTunneler (some {}) (.ok { altSvc := [], protoMajor := 2 }) = .http2 :=
  ⟨pickUDPTunnelerNeverHTTP2.2.2.1 {} { altSvc := [], protoMajor := 2 } (by decide),
   pickUDPTunnelerNeverHTTP2.2.2.2.2.2 {} { altSvc := [], protoMajor := 2 } (by decide) rfl⟩

/-- The final classification step returns exactly the error it was
given. -/
theorem runWithJWTFinish_result (key : String) (err : Option GoError)
    (hc : List String) (g : Nat) (sc : List (String × String)) :
    (runWithJWTFinish key err hc g sc).result = err := by
  cases err with
  | none => rfl
  | some e =>
    by_cases h : (errIs e errUnavailable || errIs e errUnauthorized) = true <;>
      simp [runWithJWTFinish, h]

/-- The final classification step passes the interaction trace through
unchanged. -/
theorem runWithJWTFinish_trace (key : String) (err : Option GoError)
    (hc : List String) (g : Nat) (sc : List (String × String)) :
    (runWithJWTFinish key err hc g sc).handlerCalls = hc
      ∧ (runWithJWTFinish key err hc g sc).getJWTCalls = g
      ∧ (runWithJWTFinish key err hc g sc).storeCalls = sc := by
  cases err with
  | none => exact ⟨rfl, rfl, rfl⟩
  | some e =>
    by_cases h : (errIs e errUnavailable || errIs e errUnauthorized) = true <;>
      simp [runWithJWTFinish, h]

/-- The final classification step deletes the cached token exactly when
the error is non-nil and neither errUnavailable nor errUnauthorized. -/
theorem runWithJWTFinish_deleteCalls (key : String) (err : Option GoError)
    (hc : List String) (g : Nat) (sc : List (String × String)) :
    (runWithJWTFinish key err hc g sc).deleteCalls
      = match err with
        | none => []
        | some e =>
          if errIs e errUnavailable || errIs e errUnauthorized then [] else [key] := by
  cases err with
  | none => rfl
  | some e =>
    by_cases h : (errIs e errUnavailable || errIs e errUnauthorized) = true <;>
      simp [runWithJWTFinish, h]

/-- Under a benign load and a functioning login collaborator, runWithJWT
reduces to the final classification of a handler error: without a retry
it classifies the first attempt with an untouched cache; with a retry
(first attempt errUnauthenticated) it classifies the second attempt after
one GetJWT and one StoreJWT of the fresh token. -/
theorem runWithJWT_reduces (key t : String) (env : JWTEnv)
    (hload : loadIsBenign env = true)
    (hget : env.getJWTResult = .ok t)
    (hstore : env.storeResult = none) :
    (errOptIs (env.handlerResult 0 env.loadResult.1) errUnauthenticated = false
        ∧ runWithJWT key env
          = runWithJWTFinish key (env.handlerResult 0 env.loadResult.1)
              [env.loadResult.1] 0 [])
      ∨ (errOptIs (env.handlerResult 0 env.loadResult.1) errUnauthenticated = true
          ∧ runWithJWT key env
            = runWithJWTFinish key (env.handlerResult 1 t)
                [env.loadResult.1, t] 1 [(key, t)]) := by
  rcases hL : env.loadResult with ⟨tok, le⟩
  by_cases h0 : errOptIs (env.handlerResult 0 tok) errUnauthenticated = true
  · refine Or.inr ⟨h0, ?_⟩
    unfold runWithJWT
    rw [hL]
    cases le with
    | none => simp only [h0, if_pos, hget, hstore]
    | some e =>
      have hb : (errIs e jwtErrExpired || errIs e jwtErrInvalid
          || errIs e jwtErrNotFound) = true := by
        simpa [loadIsBenign, hL] using hload
      simp only [hb, h0, if_pos, hget, hstore]
  · rw [Bool.not_eq_true] at h0
    refine Or.inl ⟨h0, ?_⟩
    unfold runWithJWT
    rw [hL]
    cases le with
    | none => simp only [h0, Bool.false_eq_true, if_false]
    | some e =>
      have hb : (errIs e jwtErrExpired || errIs e jwtErrInvalid
          || errIs e jwtErrNotFound) = true := by
        simpa [loadIsBenign, hL] using hload
      simp only [hb, h0, Bool.false_eq_true, if_false]

/-- C1: when every handler attempt fails with errUnauthenticated (and the
login collaborators function), runWithJWT invokes the handler exactly
twice, invokes GetJWT exactly once and returns errUnauthenticated. -/
theorem runWithJWTAuthRetryBound (key t : String) (env : JWTEnv)
    (hload : loadIsBenign env = true)
    (hh : ∀ i jwt, env.handlerResult i jwt = some errUnauthenticated)
    (hget : env.getJWTResult = .ok t)
    (hstore : env.storeResult = none) :
    (runWithJWT key env).handlerCalls.length = 2
      ∧ (runWithJWT key env).getJWTCalls = 1
      ∧ (runWithJWT key env).result = some errUnauthenticated := by
  rcases runWithJWT_reduces key t env hload hget hstore with ⟨h0, hred⟩ | ⟨_, hred⟩
  · rw [hh 0 env.loadResult.1] at h0
    simp [errOptIs, errIs] at h0
  · rw [hred, hh 1 t]
    obtain ⟨hhc, hg, _⟩ := runWithJWTFinish_trace key (some errUnauthenticated)
      [env.loadResult.1, t] 1 [(key, t)]
    refine ⟨by rw [hhc]; rfl, hg, ?_⟩
    rw [runWithJWTFinish_result]

/-- C1 witness: the retry bound evaluated on a concrete environment. -/
theorem runWithJWTAuthRetryBoundConcrete :
    (runWithJWT "proxy.example.com|true"
        { loadResult := ("", none)
          handlerResult := fun _ _ => some errUnauthenticated
          getJWTResult := .ok "fresh-jwt"
          storeResult := none }).handlerCalls.length = 2
      ∧ (runWithJWT "proxy.example.com|true"
          { loadResult := ("", none)
            handlerResult := fun _ _ => some errUnauthenticated
            getJWTResult := .ok "fresh-jwt"
            storeResult := none }).getJWTCalls = 1
      ∧ (runWithJWT "proxy.example.com|true"
          { loadResult := ("", none)
            handlerResult := fun _ _ => some errUnauthenticated
            getJWTResult := .ok "fresh-jwt"
            storeResult := none }).result = some errUnauthenticated :=
  runWithJWTAuthRetryBound "proxy.example.com|true" "fresh-jwt" _
    (by decide) (fun _ _ => rfl) rfl rfl

/-- C2 counterexample: a run whose first attempt is errUnauthenticated
and whose retry ends in errUnavailable terminates with errUnavailable and
never calls DeleteJWT, yet the cached token was changed: the fresh login
token was stored.  This refutes the claim that the cached token is left
unchanged whenever the terminal error is unavailable or unauthorized. -/
theorem runWithJWTUnavailableAfterStore :
    runWithJWT "k"
        { loadResult := ("tok", none)
          handlerResult := fun i _ =>
            if i = 0 then some errUnauthenticated else some errUnavailable
          getJWTResult := .ok "fresh"
          storeResult := none }
      = { result := some errUnavailable
          handlerCalls := ["tok", "fresh"]
          getJWTCalls := 1
          storeCalls := [("k", "fresh")]
          deleteCalls := [] }
      ∧ ([("k", "fresh")] : List (String × String)) ≠ [] :=
  ⟨rfl, by decide⟩

/-- C2 (amended): under a benign load and functioning login
collaborators, a terminal handler error that is neither errUnavailable
nor errUnauthorized causes exactly one DeleteJWT of the cache key; a
terminal errUnavailable or errUnauthorized causes none, although the
fresh token of an intervening login retry remains stored: the cache is
either untouched or holds exactly the fresh token. -/
theorem runWithJWTCacheInvalidation (key t : String) (env : JWTEnv)
    (hload : loadIsBenign env = true)
    (hget : env.getJWTResult = .ok t)
    (hstore : env.storeResult = none) :
    (∀ e, (runWithJWT key env).result = some e →
        errIs e errUnavailable = false → errIs e errUnauthorized = false →
        (runWithJWT key env).deleteCalls = [key])
      ∧ (∀ e, (runWithJWT key env).result = some e →
          (errIs e errUnavailable = true ∨ errIs e errUnauthorized = true) →
          (runWithJWT key env).deleteCalls = [])
      ∧ ((runWithJWT key env).storeCalls = []
          ∨ (runWithJWT key env).storeCalls = [(key, t)]) := by
  have hmain : ∀ (err : Option GoError) (hc : List String) (g : Nat)
      (sc : List (String × String)),
      runWithJWT key env = runWithJWTFinish key err hc g sc →
      (∀ e, (runWithJWT key env).result = some e →
          errIs e errUnavailable = false → errIs e errUnauthorized = false →
          (runWithJWT key env).deleteCalls = [key])
        ∧ (∀ e, (runWithJWT key env).result = some e →
            (errIs e errUnavailable = true ∨ errIs e errUnauthorized = true) →
            (runWithJWT key env).deleteCalls = []) := by
    intro err hc g sc hred
    rw [hred, runWithJWTFinish_result, runWithJWTFinish_deleteCalls]
    constructor
    · rintro e rfl h1 h2
      simp [h1, h2]
    · rintro e rfl h12
      rcases h12 with h1 | h1 <;> simp [h1]
  rcases runWithJWT_reduces key t env hload hget hstore with ⟨_, hred⟩ | ⟨_, hred⟩
  · obtain ⟨ha, hb⟩ := hmain _ _ _ _ hred
    refine ⟨ha, hb, Or.inl ?_⟩
    rw [hred]
    exact (runWithJWTFinish_trace _ _ _ _ _).2.2
  · obtain ⟨ha, hb⟩ := hmain _ _ _ _ hred
    refine ⟨ha, hb, Or.inr ?_⟩
    rw [hred]
    exact (runWithJWTFinish_trace _ _ _ _ _).2.2

/-- C2 witness: the amended invalidation law evaluated on a concrete
environment whose single attempt fails with a generic transport error:
DeleteJWT is called exactly once with the cache key. -/
theorem runWithJWTCacheInvalidationConcrete :
    (runWithJWT "k"
        { loadResult := ("tok", none)
          handlerResult := fun _ _ => some (GoError.basic "boom")
          getJWTResult := .ok "fresh"
          storeResult := none }).deleteCalls = ["k"] :=
  (runWithJWTCacheInvalidation "k" "fresh"
      { loadResult := ("tok", none)
        handlerResult := fun _ _ => some (GoError.basic "boom")
        getJWTResult := .ok "fresh"
        storeResult := none }
      (by decide) rfl rfl).1
    (GoError.basic "boom") rfl (by decide) (by decide)

/-- Unfolding lemma: a nil entry at the head of the list is skipped. -/
theorem fallbackCall_cons_skip (res : Nat → Option GoError)
    (rest : List (Option Nat)) :
    fallbackCall res (none :: rest)
      = ((fallbackCall res rest).1, none :: (fallbackCall res rest).2.1,
          (fallbackCall res rest).2.2) := by
  rcases hr : fallbackCall res rest with ⟨a, b, c⟩
  simp [fallbackCall, hr]

/-- Unfolding lemma: a head entry whose result wraps errUnsupported is
invoked, overwritten with nil, and the walk continues with the rest. -/
theorem fallbackCall_cons_prune (res : Nat → Option GoError) (id : Nat)
    (rest : List (Option Nat)) (e : GoError) (he : res id = some e)
    (hu : errIs e errUnsupported = true) :
    fallbackCall res (some id :: rest)
      = (id :: (fallbackCall res rest).1, none :: (fallbackCall res rest).2.1,
          (fallbackCall res rest).2.2) := by
  rcases hr : fallbackCall res rest with ⟨a, b, c⟩
  simp [fallbackCall, he, hu, hr]

/-- A fallback call never invokes a tunneler that is not (or no longer)
in the entry list, and never resurrects it. -/
theorem fallbackCall_not_mem (res : Nat → Option GoError)
    (st : List (Option Nat)) (id : Nat) (h : some id ∉ st) :
    (fallbackCall res st).1.count id = 0
      ∧ some id ∉ (fallbackCall res st).2.1 := by
  induction st with
  | nil => simp [fallbackCall]
  | cons hd tl ih =>
    have hhd : hd ≠ some id := fun he => h (he ▸ List.mem_cons_self _ _)
    have htl : some id ∉ tl := fun ht => h (List.mem_cons_of_mem _ ht)
    obtain ⟨ih1, ih2⟩ := ih htl
    cases hd with
    | none =>
      rw [fallbackCall_cons_skip]
      refine ⟨ih1, ?_⟩
      intro hm
      rcases List.mem_cons.mp hm with h1 | h2
      · cases h1
      · exact ih2 h2
    | some j =>
      have hj : (j == id) = false := by
        simp only [beq_eq_false_iff_ne, ne_eq]
        exact fun hji => hhd (by rw [hji])
      have hmem : some id ∉ (some j :: tl : List (Option Nat)) := by
        intro hm
        rcases List.mem_cons.mp hm with h1 | h2
        · exact hhd h1.symm
        · exact htl h2
      cases hres : res j with
      | none =>
        simp only [fallbackCall, hres]
        exact ⟨by simp [List.count_cons, hj], hmem⟩
      | some e =>
        by_cases hu : errIs e errUnsupported = true
        · rw [fallbackCall_cons_prune res j tl e hres hu]
          refine ⟨by simp [List.count_cons, hj, ih1], ?_⟩
          intro hm
          rcases List.mem_cons.mp hm with h1 | h2
          · cases h1
          · exact ih2 h2
        · rw [Bool.not_eq_true] at hu
          simp only [fallbackCall, hres, hu, Bool.false_eq_true, if_false]
          exact ⟨by simp [List.count_cons, hj], hmem⟩

/-- A sequence of fallback calls never invokes a tunneler that is not in
the entry list. -/
theorem fallbackRun_not_mem (res : Nat → Nat → Option GoError)
    (st : List (Option Nat)) (id k : Nat) (h : some id ∉ st) :
    fallbackInvocations id (fallbackRun res st k).1 = 0
      ∧ some id ∉ (fallbackRun res st k).2 := by
  induction k generalizing res st with
  | zero => simpa [fallbackRun, fallbackInvocations] using h
  | succ n ih =>
    rcases hc : fallbackCall (res 0) st with ⟨l, st', o⟩
    obtain ⟨h1, h2⟩ := fallbackCall_not_mem (res 0) st id h
    rw [hc] at h1 h2
    have h1' : List.count id l = 0 := h1
    have h2' : some id ∉ st' := h2
    obtain ⟨h3, h4⟩ := ih (fun i => res (i + 1)) st' h2'
    rcases hrun : fallbackRun (fun i => res (i + 1)) st' n with ⟨calls, stf⟩
    rw [hrun] at h3 h4
    have h3' : (calls.map fun c => List.count id c.1).sum = 0 := h3
    have h4' : some id ∉ stf := h4
    simp only [fallbackRun, hc, hrun]
    exact ⟨by simp [fallbackInvocations, h1', h3'], h4'⟩

/-- C4 counterexample: with both wrapped tunnelers always returning
errUnsupported, the first fallback call does not return what the second
tunneler returned: it returns the distinct no-tunnelers-defined error
after pruning both entries. -/
theorem fallbackBothUnsupported :
    fallbackCall (fun _ => some errUnsupported) [some 0, some 1]
        = ([0, 1], [none, none], some errNoTunnelers)
      ∧ (some errNoTunnelers : Option GoError) ≠ some errUnsupported :=
  ⟨rfl, by decide⟩

/-- C4 (amended): for a fallback tunneler over entries A = 0 and B = 1
where every call to A yields a result wrapping errUnsupported: the first
call invokes A then B, prunes A, and returns exactly what B returned
provided that result does not wrap errUnsupported; A is invoked at most
once across any number of calls; a head entry whose result does not wrap
errUnsupported is returned as-is, with no later entry tried and nothing
pruned; and a call on a fully pruned list fails with the error wrapping
errUnsupported whose message is unsupported: no tunnelers defined. -/
theorem fallbackPruneMonotone :
    (∀ res : Nat → Nat → Option GoError,
        (∀ n, isUnsupportedResult (res n 0)) →
        (∀ rB, res 0 1 = rB → ¬ isUnsupportedResult rB →
            fallbackCall (res 0) [some 0, some 1] = ([0, 1], [none, some 1], rB))
          ∧ ∀ k, fallbackInvocations 0 (fallbackRun res [some 0, some 1] k).1 ≤ 1)
      ∧ (∀ (res : Nat → Option GoError) (id : Nat) (rest : List (Option Nat)),
          ¬ isUnsupportedResult (res id) →
          fallbackCall res (some id :: rest) = ([id], some id :: rest, res id))
      ∧ (∀ res : Nat → Option GoError,
          fallbackCall res [none, none] = ([], [none, none], some errNoTunnelers))
      ∧ errIs errNoTunnelers errUnsupported = true
      ∧ errNoTunnelers.message = "unsupported: no tunnelers defined" := by
  have headAsIs : ∀ (res : Nat → Option GoError) (id : Nat)
      (rest : List (Option Nat)), ¬ isUnsupportedResult (res id) →
      fallbackCall res (some id :: rest) = ([id], some id :: rest, res id) := by
    intro res id rest hn
    cases hres : res id with
    | none => simp [fallbackCall, hres]
    | some e =>
      have hu : errIs e errUnsupported = false := by
        rw [← Bool.not_eq_true]
        exact fun hx => hn ⟨e, hres, hx⟩
      simp [fallbackCall, hres, hu]
  refine ⟨?_, headAsIs, fun _ => rfl, by decide, rfl⟩
  intro res hA
  constructor
  · intro rB hB hnB
    have hnB2 : ¬ isUnsupportedResult (res 0 1) := by rw [hB]; exact hnB
    obtain ⟨e, he, hu⟩ := hA 0
    rw [fallbackCall_cons_prune (res 0) 0 [some 1] e he hu,
      headAsIs (res 0) 1 [] hnB2, hB]
  · intro k
    cases k with
    | zero => simp [fallbackRun, fallbackInvocations]
    | succ n =>
      obtain ⟨e, he, hu⟩ := hA 0
      have hst0 := fallbackCall_cons_prune (res 0) 0 [some 1] e he hu
      rcases hc1 : fallbackCall (res 0) [some 1] with ⟨l1, s1, o1⟩
      rw [hc1] at hst0
      obtain ⟨hl1, hs1⟩ := fallbackCall_not_mem (res 0) [some 1] 0 (by simp)
      rw [hc1] at hl1 hs1
      have hl1' : List.count 0 l1 = 0 := hl1
      have hs1' : some 0 ∉ s1 := hs1
      have hnone : some 0 ∉ (none :: s1 : List (Option Nat)) := by
        intro hm
        rcases List.mem_cons.mp hm with h1 | h2
        · cases h1
        · exact hs1' h2
      rcases hrun : fallbackRun (fun i => res (i + 1)) (none :: s1) n
        with ⟨calls, stf⟩
      obtain ⟨h3, _⟩ := fallbackRun_not_mem (fun i => res (i + 1))
        (none :: s1) 0 n hnone
      rw [hrun] at h3
      have h3' : (calls.map fun c => List.count 0 c.1).sum = 0 := h3
      simp only [fallbackRun, hst0, hrun]
      simp [fallbackInvocations, List.count_cons, hl1', h3']

/-- C4 witness: the amended statement instantiated with an A that always
returns errUnsupported and a B that always succeeds: the first call
returns the success of B, and A is invoked at most once across three
calls. -/
theorem fallbackPruneMonotoneConcrete :
    fallbackCall ((fun _ id => if id = 0 then some errUnsupported else none) 0)
        [some 0, some 1] = ([0, 1], [none, some 1], none)
      ∧ fallbackInvocations 0
          (fallbackRun (fun _ id => if id = 0 then some errUnsupported else none)
            [some 0, some 1] 3).1 ≤ 1 :=
  ⟨(fallbackPruneMonotone.1 (fun _ id => if id = 0 then some errUnsupported else none)
        (fun _ => ⟨errUnsupported, rfl, by decide⟩)).1 none rfl
      (by rintro ⟨x, hx, _⟩; cases hx),
   (fallbackPruneMonotone.1 (fun _ id => if id = 0 then some errUnsupported else none)
        (fun _ => ⟨errUnsupported, rfl, by decide⟩)).2 3⟩

/-- While the queue has room, sendOrDrop appends without dropping. -/
theorem floodQueue_fill {α : Type} (cap : Nat) (q ps : List α)
    (h : q.length + ps.length ≤ cap) :
    floodQueue cap q ps = (q ++ ps, 0) := by
  induction ps generalizing q with
  | nil => simp [floodQueue]
  | cons p ps ih =>
    have hlt : q.length < cap := by simp at h; omega
    simp only [floodQueue, sendOrDrop, if_pos hlt]
    rw [ih (q ++ [p]) (by simp at h ⊢; omega)]
    simp

/-- On a full queue of positive capacity, every sendOrDrop evicts the
oldest element, drops it, and appends the new one: pushing ps drops
exactly ps.length elements and leaves the last cap elements. -/
theorem floodQueue_full {α : Type} (cap : Nat) (q ps : List α)
    (hq : q.length = cap) (hc : 1 ≤ cap) :
    floodQueue cap q ps = ((q ++ ps).drop ps.length, ps.length) := by
  induction ps generalizing q with
  | nil => simp [floodQueue]
  | cons p ps ih =>
    have hnlt : ¬ q.length < cap := by omega
    have hne : ¬ cap = 0 := by omega
    simp only [floodQueue, sendOrDrop, if_neg hnlt, if_neg hne]
    cases q with
    | nil => simp at hq; omega
    | cons a q' =>
      have hq2 : ((a :: q').tail ++ [p]).length = cap := by
        simp at hq ⊢; omega
      rw [ih _ hq2]
      simp [List.append_assoc]
      omega

/-- On a zero-capacity queue every pushed element is itself dropped. -/
theorem floodQueue_zeroCap {α : Type} (q ps : List α) :
    floodQueue 0 q ps = (q, ps.length) := by
  induction ps with
  | nil => simp [floodQueue]
  | cons p ps ih =>
    simp only [floodQueue, sendOrDrop]
    simp [ih, Prod.ext_iff]
    omega

/-- Pushing a concatenation is pushing the parts in sequence, adding
their drop counts. -/
theorem floodQueue_append {α : Type} (cap : Nat) (q as bs : List α) :
    floodQueue cap q (as ++ bs)
      = ((floodQueue cap (floodQueue cap q as).1 bs).1,
          (floodQueue cap q as).2 + (floodQueue cap (floodQueue cap q as).1 bs).2) := by
  induction as generalizing q with
  | nil => simp [floodQueue]
  | cons a as ih =>
    simp only [List.cons_append, floodQueue, List.append_eq]
    rw [ih]
    simp [Prod.ext_iff]
    omega

/-- C6: pushing cap + k packets (k at least 1) into an idle empty
session queue of capacity cap drops exactly k packets and leaves exactly
cap deliverable packets, namely the last cap packets in their original
arrival order (the k oldest were evicted). -/
theorem floodQueueDropAccounting (cap k : Nat) (ps : List UDPPacket)
    (hlen : ps.length = cap + k) (hk : 1 ≤ k) :
    floodQueue cap [] ps = (ps.drop k, k)
      ∧ (ps.drop k).length = cap
      ∧ (ps.drop k).Sublist ps := by
  have hlen2 : (ps.drop k).length = cap := by
    simp only [List.length_drop]
    omega
  refine ⟨?_, hlen2, List.drop_sublist k ps⟩
  rcases Nat.eq_zero_or_pos cap with hc0 | hcpos
  · subst hc0
    rw [floodQueue_zeroCap]
    have hpk : ps.length = k := by omega
    have hdk : ps.drop k = [] := List.drop_eq_nil_of_le (by omega)
    rw [hdk, hpk]
  · have hsplit : ps.take cap ++ ps.drop cap = ps := List.take_append_drop cap ps
    have htlen : (ps.take cap).length = cap := by
      simp only [List.length_take]
      omega
    have hdlen : (ps.drop cap).length = k := by
      simp only [List.length_drop]
      omega
    have hfill : floodQueue cap ([] : List UDPPacket) (ps.take cap)
        = (ps.take cap, 0) := by
      rw [floodQueue_fill]
      simp only [List.nil_append]
      simp [htlen]
    conv_lhs => rw [← hsplit]
    rw [floodQueue_append, hfill]
    rw [floodQueue_full cap (ps.take cap) (ps.drop cap) htlen hcpos]
    rw [hsplit, hdlen]
    simp

/-- C6 witness: a queue of capacity 2 flooded with 3 packets drops
exactly 1 packet and delivers the last 2 in order. -/
theorem floodQueueDropAccountingConcrete :
    floodQueue 2 []
        [{ addr := "a", payload := [1] }, { addr := "a", payload := [2] },
          { addr := "a", payload := [3] }]
      = (([{ addr := "a", payload := [1] }, { addr := "a", payload := [2] },
          { addr := "a", payload := [3] }] : List UDPPacket).drop 1, 1)
      ∧ (([{ addr := "a", payload := [1] }, { addr := "a", payload := [2] },
          { addr := "a", payload := [3] }] : List UDPPacket).drop 1).length = 2
      ∧ (([{ addr := "a", payload := [1] }, { addr := "a", payload := [2] },
          { addr := "a", payload := [3] }] : List UDPPacket).drop 1).Sublist
          [{ addr := "a", payload := [1] }, { addr := "a", payload := [2] },
            { addr := "a", payload := [3] }] :=
  floodQueueDropAccounting 2 1
    [{ addr := "a", payload := [1] }, { addr := "a", payload := [2] },
      { addr := "a", payload := [3] }] (by decide) (by decide)

/-- Every value below 2^62 has a varint encoding. -/
theorem quicvarintAppend_isSome (n : Nat) (h : n < 4611686018427387904) :
    ∃ bs, quicvarintAppend n = some bs := by
  unfold quicvarintAppend
  split_ifs
  · exact ⟨_, rfl⟩
  · exact ⟨_, rfl⟩
  · exact ⟨_, rfl⟩
  · exact ⟨_, rfl⟩

/-- Reading a varint from the front of a stream that starts with the
encoding of n yields n and the remaining bytes. -/
theorem quicvarintRead_append (n : Nat) (bs rest : List Nat)
    (h : quicvarintAppend n = some bs) :
    quicvarintRead (bs ++ rest) = some (n, rest) := by
  unfold quicvarintAppend at h
  split_ifs at h with h1 h2 h3 h4
  · injection h with h
    subst h
    have e0 : n / 64 = 0 := by omega
    simp [quicvarintRead, e0]
    omega
  · injection h with h
    subst h
    have e1 : (64 + n / 256) / 64 = 1 := by omega
    simp [quicvarintRead, e1]
    omega
  · injection h with h
    subst h
    have e2 : (128 + n / 16777216) / 64 = 2 := by omega
    simp [quicvarintRead, e2]
    omega
  · injection h with h
    subst h
    have e3 : (192 + n / 72057594037927936) / 64 = 3 := by omega
    simp [quicvarintRead, e3]
    omega

/-- C5: encoding any payload with writeUDPCapsuleDatagram and decoding
the produced bytes with readUDPCapsuleDatagram yields back exactly the
payload (with nothing left over), for every byte sequence whose length
fits a varint, the empty sequence included. -/
theorem capsuleDatagramRoundTrip (P : List Nat)
    (h : P.length + 1 < 4611686018427387904) :
    ∃ bs, writeUDPCapsuleDatagram P = some bs
      ∧ readUDPCapsuleDatagram bs = some (P, []) := by
  obtain ⟨lb, hlb⟩ := quicvarintAppend_isSome (P.length + 1) h
  have hlen : (contextID ++ P).length = P.length + 1 := by
    simp [contextID]
  have hwrite : writeUDPCapsuleDatagram P
      = some ([0] ++ lb ++ (contextID ++ P)) := by
    unfold writeUDPCapsuleDatagram writeCapsule
    rw [hlen]
    simp only [show quicvarintAppend 0 = some [0] from rfl, hlb, Option.bind_eq_bind,
      Option.some_bind]
    rfl
  refine ⟨_, hwrite, ?_⟩
  have r1 : quicvarintRead ([0] ++ lb ++ (contextID ++ P))
      = some (0, lb ++ (contextID ++ P)) := by
    have := quicvarintRead_append 0 [0] (lb ++ (contextID ++ P)) rfl
    simpa [List.append_assoc] using this
  have r2 : quicvarintRead (lb ++ (contextID ++ P))
      = some (P.length + 1, contextID ++ P) :=
    quicvarintRead_append (P.length + 1) lb (contextID ++ P) hlb
  have r3 : quicvarintRead (contextID ++ P) = some (0, P) :=
    quicvarintRead_append 0 [0] P rfl
  have htake : List.take (P.length + 1) (contextID ++ P) = contextID ++ P := by
    rw [← hlen]
    exact List.take_length _
  have hdrop : List.drop (P.length + 1) (contextID ++ P) = [] := by
    rw [← hlen]
    exact List.drop_length _
  unfold readUDPCapsuleDatagram parseCapsule
  simp only [r1, r2, r3, htake, hdrop, Option.bind_eq_bind, Option.some_bind,
    Option.pure_def]

/-- C5 witness: the round trip evaluated on the empty payload. -/
theorem capsuleDatagramRoundTripEmpty :
    ∃ bs, writeUDPCapsuleDatagram [] = some bs
      ∧ readUDPCapsuleDatagram bs = some ([], []) :=
  capsuleDatagramRoundTrip [] (by decide)

/-- C7 counterexample: for the well-formed IPv6 destination [::1]:6379
with no proxy override, the destination address is resolved correctly but
the returned proxy URL host is the bare address ::1: the :443 default is
not appended, because the port-fill check mistakes the colons of the
IPv6 address for an existing port. -/
theorem parseURLsIPv6NoPortFill :
    ParseURLs (fun _ => none) ("[::1]:6379".toList) []
        = ("[::1]:6379".toList,
            some { scheme := httpsChars, host := "::1".toList, path := [] },
            none)
      ∧ "::1".toList ≠ "[::1]:443".toList
      ∧ "::1".toList ≠ "::1:443".toList := by
  refine ⟨by decide, by decide, by decide⟩

/-- C7 (amended): for every destination of the form host:port (no scheme
separator, accepted by net.SplitHostPort) with an empty proxy override,
ParseURLs succeeds with destinationAddr being the host joined back to its
port, and a proxy URL with scheme https whose host is host:443 when the
host has no colon; when the host is an IPv6 literal (contains a colon)
the proxy host is left as the bare address with no port appended. -/
theorem parseURLsHostPortDefaults (urlParse : List Char → Option GoURL)
    (dest h p : List Char)
    (hsepFree : goContains dest schemeSeparator = false)
    (hsplit : goSplitHostPort dest = some (h, p)) :
    ParseURLs urlParse dest []
      = (goJoinHostPort h p,
          some { scheme := httpsChars,
                 host := if h.contains ':' then h else h ++ ':' :: port443,
                 path := [] },
          none) := by
  by_cases hc : ':' ∈ h
  · simp [ParseURLs, hsepFree, hsplit, hc]
  · simp [ParseURLs, hsepFree, hsplit, hc, goJoinHostPort]

/-- C7 witness: the defaulting behaviour evaluated on the spec example
redis.example.com:6379, yielding proxy host redis.example.com:443. -/
theorem parseURLsHostPortDefaultsRedis :
    ParseURLs (fun _ => none) ("redis.example.com:6379".toList) []
      = (goJoinHostPort ("redis.example.com".toList) ("6379".toList),
          some { scheme := httpsChars,
                 host := if ("redis.example.com".toList).contains ':'
                   then "redis.example.com".toList
                   else "redis.example.com".toList ++ ':' :: port443,
                 path := [] },
          none) :=
  parseURLsHostPortDefaults (fun _ => none) ("redis.example.com:6379".toList)
    ("redis.example.com".toList) ("6379".toList) (by decide) (by decide)

/-- C8: ParseURLs fails closed.  An empty destination always yields the
invalid destination error with zero-value outputs, whatever the proxy
override; and for a well-formed host:port destination, a non-empty proxy
override that fails to parse, or parses to a URL with an empty host,
yields the invalid pomerium url error with zero-value outputs. -/
theorem parseURLsFailClosed :
    (∀ (urlParse : List Char → Option GoURL) (pomeriumURL : List Char),
        ParseURLs urlParse [] pomeriumURL = ([], none, some "invalid destination"))
      ∧ (∀ (urlParse : List Char → Option GoURL) (dest h p pomeriumURL : List Char),
          goContains dest schemeSeparator = false →
          goSplitHostPort dest = some (h, p) →
          pomeriumURL ≠ [] →
          (urlParse pomeriumURL = none
            ∨ ∃ u, urlParse pomeriumURL = some u ∧ u.host = []) →
          ParseURLs urlParse dest pomeriumURL
            = ([], none, some "invalid pomerium url")) := by
  constructor
  · intro urlParse pomeriumURL
    rfl
  · intro urlParse dest h p pomeriumURL hsepFree hsplit hpom hbad
    have hpe : pomeriumURL.isEmpty = false := by
      cases pomeriumURL with
      | nil => exact absurd rfl hpom
      | cons a t => rfl
    rcases hbad with hnone | ⟨u, hu, hhost⟩
    · simp [ParseURLs, hsepFree, hsplit, hpe, hnone]
    · simp [ParseURLs, hsepFree, hsplit, hpe, hu, hhost]

/-- C8 witness: the fail-closed behaviour evaluated on the destination
a:1 with a proxy override x that the URL parser rejects. -/
theorem parseURLsFailClosedConcrete :
    ParseURLs (fun _ => none) ("a:1".toList) ("x".toList)
      = ([], none, some "invalid pomerium url") :=
  parseURLsFailClosed.2 (fun _ => none) ("a:1".toList) ([ 'a' ]) ([ '1' ])
    ("x".toList) (by decide) (by decide) (by decide) (Or.inl rfl)

end PomeriumTunnel
